import Mathlib

/-!
A shallow embedding of the Spatial Data Platform API (src/main.py) and the
pieces of its collaborators it relies on (src/app/models/spatial.py,
src/app/database.py).  Handlers are modelled as functions over an explicit
database state holding the committed rows; a handler that raises an
HTTPException before `db.commit()` leaves the committed state unchanged
(the per-request session is closed without commit, which rolls the
transaction back).  Coordinates are modelled as exact rationals.
-/

namespace SpatialApp

/-- An HTTPException as raised by the handlers: status code and detail. -/
structure HTTPError where
  status : Nat
  detail : String
deriving Repr, DecidableEq

/-- The coordinate payload of a GeoJSON geometry dict: a single
longitude/latitude pair for a Point, or a list of rings for a Polygon. -/
inductive Coords where
  | pt : ℚ → ℚ → Coords
  | rings : List (List (ℚ × ℚ)) → Coords
deriving Repr, DecidableEq

/-- The `geometry` dict of a GeoJSON feature: a type tag and coordinates. -/
structure GeoJson where
  type : String
  coordinates : Coords
deriving Repr, DecidableEq

/-- An incoming GeoJSON feature (the Pydantic PointFeature/PolygonFeature
request models: top-level type tag, geometry dict, properties dict).
Property values that matter to the core (name, description) are strings;
the dict is an association list with first-match lookup. -/
structure Feature where
  type : String
  geometry : GeoJson
  properties : List (String × String)
deriving Repr, DecidableEq

/-- An incoming GeoJSON FeatureCollection (the request body of POST). -/
structure FeatureCollectionIn where
  type : String
  features : List Feature
deriving Repr, DecidableEq

/-- The well-known-text geometry built by the handlers and sent to the
storage engine: `POINT(lon lat)` for a point, shapely's polygon WKT for a
polygon.  Modelled structurally: the text carries exactly the type tag and
the coordinate values. -/
inductive Wkt where
  | point : ℚ → ℚ → Wkt
  | polygon : List (List (ℚ × ℚ)) → Wkt
deriving Repr, DecidableEq

/-- Modelled from the spec: `ST_GeomFromText(wkt, 4326)`.  The storage
engine (an external collaborator, not in src/) parses the WKT text back to
the same geometry, tagged with SRID 4326; the spec treats the engine's
text-to-geometry conversion as the faithful inverse of the textual bridge
format. -/
def geomFromText (w : Wkt) : Wkt := w

/-- Modelled from the spec: `ST_AsText(geom)`.  The engine renders a stored
geometry back to its WKT text; per the spec the text form carries the same
coordinates. -/
def asText (w : Wkt) : Wkt := w

/-- Modelled from the spec: `ST_AsGeoJSON(geom)` followed by `json.loads`.
The engine is the canonical encoder for reads: it emits the stored
geometry's type tag and coordinates as a GeoJSON geometry object. -/
def asGeoJSON : Wkt → GeoJson
  | .point lon lat => ⟨"Point", .pt lon lat⟩
  | .polygon rs => ⟨"Polygon", .rings rs⟩

/-- A persisted row of `point_data` / `polygon_data`. -/
structure Row where
  id : Nat
  name : String
  description : String
  geom : Wkt
  created_at : Nat
  updated_at : Nat
deriving Repr, DecidableEq

/-- The committed database state: the rows of the two tables, the next
serial primary key of each, and the current clock (for the
created_at/updated_at timestamps). -/
structure DB where
  points : List Row
  polygons : List Row
  nextPointId : Nat
  nextPolygonId : Nat
  now : Nat
deriving Repr, DecidableEq

/-- The storage engine's spatial predicates (`ST_DWithin` on geography,
`ST_Within`, `ST_Intersects`), treated as an external capability: the core
only constructs the query that applies them. -/
structure Engine where
  dwithin : Wkt → Wkt → ℚ → Bool
  within : Wkt → Wkt → Bool
  intersects : Wkt → Wkt → Bool

/-- `"POINT(lon lat)" % coords`: the WKT text the Point handlers
build.  Coordinates that are not a single pair would render as malformed
WKT that the engine rejects at flush time (a storage failure), modelled as
`none`. -/
def pointWktOf : Coords → Option Wkt
  | .pt lon lat => some (Wkt.point lon lat)
  | _ => none

/-- `shape(feature.geometry).wkt`: shapely's conversion of a GeoJSON
Polygon dict to WKT.  Point-shaped coordinates under a Polygon tag make
shapely raise (a storage-boundary failure), modelled as `none`. -/
def polygonWktOf : Coords → Option Wkt
  | .rings rs => some (Wkt.polygon rs)
  | _ => none

/-- The row built for one feature of a create batch: name defaults when the
property is absent (`properties.get("name", default)`), description
defaults to the empty string, the geometry is the parsed WKT, and both
timestamps are the current clock. -/
def mkRow (defaultName : String) (rid now : Nat) (f : Feature) (w : Wkt) : Row :=
  { id := rid
    name := (f.properties.lookup "name").getD defaultName
    description := (f.properties.lookup "description").getD ""
    geom := geomFromText w
    created_at := now
    updated_at := now }

/-- The create loop shared by `create_points` and `create_polygons`:
validate each feature's type tags, build its WKT, insert (flush assigns the
next serial id), and collect the ids in input order.  An error at any
feature aborts the whole loop — nothing reaches the commit. -/
def createLoop (geomTag defaultName errDetail : String)
    (wktOf : Coords → Option Wkt) (now : Nat) :
    Nat → List Feature → Except HTTPError (List Row × List Nat)
  | _, [] => .ok ([], [])
  | nextId, f :: fs =>
    if f.type != "Feature" || f.geometry.type != geomTag then
      .error ⟨400, errDetail⟩
    else
      match wktOf f.geometry.coordinates with
      | none => .error ⟨500, "StorageFailure"⟩
      | some w =>
        match createLoop geomTag defaultName errDetail wktOf now (nextId + 1) fs with
        | .error e => .error e
        | .ok (rows, ids) => .ok (mkRow defaultName nextId now f w :: rows, nextId :: ids)

/-- POST /api/points (`create_points`): store multiple point features.
The commit happens only after every feature of the batch has been
validated and inserted; any error leaves the committed state unchanged
(session closed without commit → rollback). -/
def create_points (db : DB) (data : FeatureCollectionIn) :
    DB × Except HTTPError (List Nat) :=
  if data.type != "FeatureCollection" then
    (db, .error ⟨400, "Invalid GeoJSON format. Must be a FeatureCollection."⟩)
  else
    match createLoop "Point" "Unnamed Point"
        "Invalid feature format. Must be Point type."
        pointWktOf db.now db.nextPointId data.features with
    | .error e => (db, .error e)
    | .ok (rows, ids) =>
      ({ db with points := db.points ++ rows
                 nextPointId := db.nextPointId + rows.length },
       .ok ids)

/-- POST /api/polygons (`create_polygons`): same structure as
`create_points`, with the Polygon tag, default name and WKT conversion. -/
def create_polygons (db : DB) (data : FeatureCollectionIn) :
    DB × Except HTTPError (List Nat) :=
  if data.type != "FeatureCollection" then
    (db, .error ⟨400, "Invalid GeoJSON format. Must be a FeatureCollection."⟩)
  else
    match createLoop "Polygon" "Unnamed Polygon"
        "Invalid feature format. Must be Polygon type."
        polygonWktOf db.now db.nextPolygonId data.features with
    | .error e => (db, .error e)
    | .ok (rows, ids) =>
      ({ db with polygons := db.polygons ++ rows
                 nextPolygonId := db.nextPolygonId + rows.length },
       .ok ids)

/-- An outgoing GeoJSON feature as assembled by the read handlers. -/
structure FeatureOut where
  type : String
  geometry : GeoJson
  id : Nat
  name : String
  description : String
  created_at : Nat
  updated_at : Nat
deriving Repr, DecidableEq

/-- An outgoing FeatureCollection response. -/
structure FeatureCollectionOut where
  type : String
  features : List FeatureOut
deriving Repr, DecidableEq

/-- The feature dict the handlers assemble for one row: type "Feature",
geometry decoded via `ST_AsGeoJSON`, and the row's fields as properties. -/
def rowToFeature (r : Row) : FeatureOut :=
  { type := "Feature"
    geometry := asGeoJSON r.geom
    id := r.id
    name := r.name
    description := r.description
    created_at := r.created_at
    updated_at := r.updated_at }

/-- GET /api/points/:id (`get_point`): first row with the id, or 404. -/
def get_point (db : DB) (pid : Nat) : Except HTTPError FeatureOut :=
  match db.points.find? (fun r => r.id == pid) with
  | none => .error ⟨404, "Point not found"⟩
  | some r => .ok (rowToFeature r)

/-- GET /api/polygons/:id (`get_polygon`). -/
def get_polygon (db : DB) (pid : Nat) : Except HTTPError FeatureOut :=
  match db.polygons.find? (fun r => r.id == pid) with
  | none => .error ⟨404, "Polygon not found"⟩
  | some r => .ok (rowToFeature r)

/-- Replace the first row satisfying the predicate (the ORM object the
handler fetched with `.first()` and mutated). -/
def updateFirst (p : Row → Bool) (g : Row → Row) : List Row → List Row
  | [] => []
  | r :: rs => if p r then g r :: rs else r :: updateFirst p g rs

/-- The mutation a PUT applies to its fetched row: name and description
only when present in the incoming properties, the geometry replaced
unconditionally, `updated_at` set to the current clock. -/
def applyUpdate (f : Feature) (w : Wkt) (now : Nat) (r : Row) : Row :=
  { r with
    name := match f.properties.lookup "name" with
            | some v => v
            | none => r.name
    description := match f.properties.lookup "description" with
                   | some v => v
                   | none => r.description
    geom := geomFromText w
    updated_at := now }

/-- The update handler body shared by `update_point` and `update_polygon`:
fetch by id (404 before anything else), then validate the type tags (400),
then apply the mutation and commit. -/
def updateRows (geomTag notFoundDetail badDetail : String)
    (wktOf : Coords → Option Wkt) (now : Nat)
    (rows : List Row) (fid : Nat) (f : Feature) :
    List Row × Except HTTPError Nat :=
  match rows.find? (fun r => r.id == fid) with
  | none => (rows, .error ⟨404, notFoundDetail⟩)
  | some _ =>
    if f.type != "Feature" || f.geometry.type != geomTag then
      (rows, .error ⟨400, badDetail⟩)
    else
      match wktOf f.geometry.coordinates with
      | none => (rows, .error ⟨500, "StorageFailure"⟩)
      | some w =>
        (updateFirst (fun r => r.id == fid) (applyUpdate f w now) rows, .ok fid)

/-- PUT /api/points/:id (`update_point`). -/
def update_point (db : DB) (pid : Nat) (f : Feature) :
    DB × Except HTTPError Nat :=
  let res := updateRows "Point" "Point not found"
    "Invalid feature format. Must be Point type."
    pointWktOf db.now db.points pid f
  ({ db with points := res.1 }, res.2)

/-- PUT /api/polygons/:id (`update_polygon`). -/
def update_polygon (db : DB) (pid : Nat) (f : Feature) :
    DB × Except HTTPError Nat :=
  let res := updateRows "Polygon" "Polygon not found"
    "Invalid feature format. Must be Polygon type."
    polygonWktOf db.now db.polygons pid f
  ({ db with polygons := res.1 }, res.2)

/-- The delete handler body: fetch by id (404 if absent), else remove the
fetched row permanently. -/
def deleteRows (notFoundDetail : String) (rows : List Row) (fid : Nat) :
    List Row × Except HTTPError Nat :=
  match rows.find? (fun r => r.id == fid) with
  | none => (rows, .error ⟨404, notFoundDetail⟩)
  | some _ => (rows.eraseP (fun r => r.id == fid), .ok fid)

/-- DELETE /api/points/:id (`delete_point`). -/
def delete_point (db : DB) (pid : Nat) : DB × Except HTTPError Nat :=
  let res := deleteRows "Point not found" db.points pid
  ({ db with points := res.1 }, res.2)

/-- DELETE /api/polygons/:id (`delete_polygon`). -/
def delete_polygon (db : DB) (pid : Nat) : DB × Except HTTPError Nat :=
  let res := deleteRows "Polygon not found" db.polygons pid
  ({ db with polygons := res.1 }, res.2)

/-- GET /api/spatial/points-within-distance (`points_within_distance`):
filter the points by the engine's geography `ST_DWithin` predicate against
`ST_MakePoint(lon, lat)` at the given distance.  The handler performs no
validation of the distance parameter. -/
def points_within_distance (e : Engine) (db : DB) (lat lon dist : ℚ) :
    Except HTTPError FeatureCollectionOut :=
  .ok ⟨"FeatureCollection",
    (db.points.filter
      (fun r => e.dwithin r.geom (Wkt.point lon lat) dist)).map rowToFeature⟩

/-- GET /api/spatial/points-in-polygon/:polygon_id
(`points_in_polygon`): 404 if the polygon is absent, else the points
satisfying the engine's `ST_Within` against the polygon's geometry. -/
def points_in_polygon (e : Engine) (db : DB) (pid : Nat) :
    Except HTTPError FeatureCollectionOut :=
  match db.polygons.find? (fun r => r.id == pid) with
  | none => .error ⟨404, "Polygon not found"⟩
  | some poly =>
    .ok ⟨"FeatureCollection",
      (db.points.filter
        (fun r => e.within r.geom poly.geom)).map rowToFeature⟩

/-- GET /api/spatial/polygons-containing-point
(`polygons_containing_point`): filter the polygons by the geography
`ST_DWithin` predicate at a fixed 1 meter buffer around
`ST_MakePoint(lon, lat)`. -/
def polygons_containing_point (e : Engine) (db : DB) (lat lon : ℚ) :
    Except HTTPError FeatureCollectionOut :=
  .ok ⟨"FeatureCollection",
    (db.polygons.filter
      (fun r => e.dwithin r.geom (Wkt.point lon lat) 1)).map rowToFeature⟩

/-- GET /api/spatial/overlapping-polygons/:polygon_id
(`overlapping_polygons`): 404 if the source polygon is absent, else the
polygons with a different id whose geometry satisfies `ST_Intersects`
against the source geometry (round-tripped through `ST_AsText` /
`ST_GeomFromText`). -/
def overlapping_polygons (e : Engine) (db : DB) (pid : Nat) :
    Except HTTPError FeatureCollectionOut :=
  match db.polygons.find? (fun r => r.id == pid) with
  | none => .error ⟨404, "Polygon not found"⟩
  | some src =>
    .ok ⟨"FeatureCollection",
      (db.polygons.filter
        (fun r => r.id != pid
          && e.intersects r.geom (geomFromText (asText src.geom)))).map
        rowToFeature⟩

/-! ### Helper lemmas about list search, in-place update and erasure -/

theorem find?_eq_none_of_forall {p : Row → Bool} {l : List Row}
    (h : ∀ x ∈ l, p x = false) : l.find? p = none := by
  rw [List.find?_eq_none]
  intro x hx
  simp [h x hx]

theorem find?_some_split {p : Row → Bool} {l : List Row} {a : Row}
    (h : l.find? p = some a) :
    ∃ l₁ l₂, l = l₁ ++ a :: l₂ ∧ (∀ x ∈ l₁, p x = false) ∧ p a = true := by
  induction l with
  | nil => simp [List.find?] at h
  | cons r rs ih =>
    rw [List.find?_cons] at h
    cases hp : p r with
    | true =>
      simp [hp] at h
      exact ⟨[], rs, by simp [h], by simp, h ▸ hp⟩
    | false =>
      simp [hp] at h
      obtain ⟨l₁, l₂, hl, h1, ha⟩ := ih h
      refine ⟨r :: l₁, l₂, by simp [hl], ?_, ha⟩
      intro x hx
      rcases List.mem_cons.mp hx with hx | hx
      · simpa [hx] using hp
      · exact h1 x hx

theorem updateFirst_append {p : Row → Bool} (g : Row → Row)
    {l₁ : List Row} {a : Row} (l₂ : List Row)
    (h1 : ∀ x ∈ l₁, p x = false) (ha : p a = true) :
    updateFirst p g (l₁ ++ a :: l₂) = l₁ ++ g a :: l₂ := by
  induction l₁ with
  | nil => simp [updateFirst, ha]
  | cons r rs ih =>
    have hr := h1 r (by simp)
    simp only [List.cons_append, updateFirst, hr]
    simp only [Bool.false_eq_true, if_false, List.cons.injEq, true_and]
    exact ih fun x hx => h1 x (by simp [hx])

theorem eraseP_append {p : Row → Bool}
    {l₁ : List Row} {a : Row} (l₂ : List Row)
    (h1 : ∀ x ∈ l₁, p x = false) (ha : p a = true) :
    (l₁ ++ a :: l₂).eraseP p = l₁ ++ l₂ := by
  induction l₁ with
  | nil => simp [List.eraseP_cons, ha]
  | cons r rs ih =>
    have hr := h1 r (by simp)
    simp only [List.cons_append, List.eraseP_cons, hr, cond_false,
      List.cons.injEq, true_and]
    exact ih fun x hx => h1 x (by simp [hx])

theorem createLoop_error_of_invalid (geomTag defaultName errDetail : String)
    (wktOf : Coords → Option Wkt) (now : Nat) {fs : List Feature}
    (h : ∃ f ∈ fs, f.type ≠ "Feature" ∨ f.geometry.type ≠ geomTag) :
    ∀ nextId, ∃ e,
      createLoop geomTag defaultName errDetail wktOf now nextId fs = .error e := by
  induction fs with
  | nil => simp at h
  | cons f fs ih =>
    intro nextId
    obtain ⟨g, hg, hbad⟩ := h
    cases hb : (f.type != "Feature" || f.geometry.type != geomTag) with
    | true => exact ⟨⟨400, errDetail⟩, by simp [createLoop, hb]⟩
    | false =>
      have hok : f.type = "Feature" ∧ f.geometry.type = geomTag := by
        simpa using hb
      have hgfs : g ∈ fs := by
        rcases List.mem_cons.mp hg with hgf | hgfs
        · subst hgf
          rcases hbad with hbad | hbad <;> exact absurd (by simp [hok]) hbad
        · exact hgfs
      obtain ⟨e, he⟩ := ih ⟨g, hgfs, hbad⟩ (nextId + 1)
      cases hw : wktOf f.geometry.coordinates with
      | none => exact ⟨⟨500, "StorageFailure"⟩, by simp [createLoop, hb, hw]⟩
      | some w => exact ⟨e, by simp [createLoop, hb, hw, he]⟩

/-- **C1.** Batch atomicity of `createMany`: if any feature of the batch has
a wrong feature type tag or a wrong geometry type tag, the whole call fails
and no rows from the batch are committed — the committed state visible to
readers is exactly the pre-call state.  Stated for both `create_points` and
`create_polygons`. -/
theorem C1_createMany_atomic (db : DB) (dataP dataG : FeatureCollectionIn)
    (hp : ∃ f ∈ dataP.features, f.type ≠ "Feature" ∨ f.geometry.type ≠ "Point")
    (hg : ∃ f ∈ dataG.features, f.type ≠ "Feature" ∨ f.geometry.type ≠ "Polygon") :
    ((create_points db dataP).1 = db ∧
      ∃ e, (create_points db dataP).2 = .error e) ∧
    ((create_polygons db dataG).1 = db ∧
      ∃ e, (create_polygons db dataG).2 = .error e) := by
  constructor
  · cases ht : (dataP.type != "FeatureCollection") with
    | true =>
      refine ⟨by simp [create_points, ht], ?_⟩
      exact ⟨⟨400, "Invalid GeoJSON format. Must be a FeatureCollection."⟩,
        by simp [create_points, ht]⟩
    | false =>
      obtain ⟨e, he⟩ := createLoop_error_of_invalid "Point" "Unnamed Point"
        "Invalid feature format. Must be Point type." pointWktOf db.now hp
        db.nextPointId
      exact ⟨by simp [create_points, ht, he], ⟨e, by simp [create_points, ht, he]⟩⟩
  · cases ht : (dataG.type != "FeatureCollection") with
    | true =>
      refine ⟨by simp [create_polygons, ht], ?_⟩
      exact ⟨⟨400, "Invalid GeoJSON format. Must be a FeatureCollection."⟩,
        by simp [create_polygons, ht]⟩
    | false =>
      obtain ⟨e, he⟩ := createLoop_error_of_invalid "Polygon" "Unnamed Polygon"
        "Invalid feature format. Must be Polygon type." polygonWktOf db.now hg
        db.nextPolygonId
      exact ⟨by simp [create_polygons, ht, he], ⟨e, by simp [create_polygons, ht, he]⟩⟩

theorem find?_append_of_none {p : Row → Bool} {l₁ : List Row} (l₂ : List Row)
    (h : ∀ x ∈ l₁, p x = false) :
    (l₁ ++ l₂).find? p = l₂.find? p := by
  rw [List.find?_append, find?_eq_none_of_forall h, Option.none_or]

theorem createLoop_ok_of_valid (geomTag defaultName errDetail : String)
    (wktOf : Coords → Option Wkt) (now : Nat) {fs : List Feature}
    (h : ∀ f ∈ fs, f.type = "Feature" ∧ f.geometry.type = geomTag ∧
      (wktOf f.geometry.coordinates).isSome) :
    ∀ nextId, ∃ rows,
      createLoop geomTag defaultName errDetail wktOf now nextId fs
        = .ok (rows, List.range' nextId fs.length) ∧
      rows.length = fs.length ∧
      ∀ i (hi : i < fs.length) (hr : i < rows.length),
        ∃ w, wktOf (fs.get ⟨i, hi⟩).geometry.coordinates = some w ∧
          rows.get ⟨i, hr⟩
            = mkRow defaultName (nextId + i) now (fs.get ⟨i, hi⟩) w := by
  induction fs with
  | nil =>
    intro nextId
    exact ⟨[], by simp [createLoop], rfl, fun i hi => by simp at hi⟩
  | cons f fs ih =>
    intro nextId
    obtain ⟨hft, hgt, hw⟩ := h f (List.mem_cons_self ..)
    obtain ⟨w, hww⟩ := Option.isSome_iff_exists.mp hw
    obtain ⟨rows, hrec, hlen, hget⟩ :=
      ih (fun g hg => h g (List.mem_cons_of_mem _ hg)) (nextId + 1)
    have hb : (f.type != "Feature" || f.geometry.type != geomTag) = false := by
      simp [hft, hgt]
    refine ⟨mkRow defaultName nextId now f w :: rows, ?_, by simp [hlen], ?_⟩
    · simp [createLoop, hb, hww, hrec, List.range']
    · intro i hi hr
      cases i with
      | zero => exact ⟨w, by simpa using hww, by simp⟩
      | succ j =>
        have hj : j < fs.length := by
          simp only [List.length_cons] at hi
          omega
        have hjr : j < rows.length := by
          simp only [List.length_cons] at hr
          omega
        obtain ⟨w2, hw2, hrow⟩ := hget j hj hjr
        have harith : nextId + 1 + j = nextId + (j + 1) := by omega
        refine ⟨w2, ?_, ?_⟩
        · simpa [List.get_eq_getElem] using hw2
        · rw [harith] at hrow
          simpa [List.get_eq_getElem] using hrow

/-- **C7.** For an all-valid `createMany` batch the call succeeds, the
returned id list is `range' nextPointId n` — so it has the same length as
the input and its i-th element is `nextPointId + i` — and the i-th inserted
row is exactly the row built from the i-th input feature with that id:
ids are returned in input order. -/
theorem C7_createMany_ids_in_order (db : DB) (data : FeatureCollectionIn)
    (ht : data.type = "FeatureCollection")
    (hv : ∀ f ∈ data.features, f.type = "Feature" ∧ f.geometry.type = "Point" ∧
      (pointWktOf f.geometry.coordinates).isSome) :
    ∃ rows,
      create_points db data
        = ({ db with points := db.points ++ rows
                     nextPointId := db.nextPointId + data.features.length },
           .ok (List.range' db.nextPointId data.features.length)) ∧
      rows.length = data.features.length ∧
      (List.range' db.nextPointId data.features.length).length
        = data.features.length ∧
      ∀ i (hi : i < data.features.length) (hr : i < rows.length)
        (hn : i < (List.range' db.nextPointId data.features.length).length),
        (List.range' db.nextPointId data.features.length).get ⟨i, hn⟩
            = db.nextPointId + i ∧
        ∃ w, pointWktOf (data.features.get ⟨i, hi⟩).geometry.coordinates
            = some w ∧
          rows.get ⟨i, hr⟩
            = mkRow "Unnamed Point" (db.nextPointId + i) db.now
                (data.features.get ⟨i, hi⟩) w := by
  obtain ⟨rows, hloop, hlen, hget⟩ :=
    createLoop_ok_of_valid "Point" "Unnamed Point"
      "Invalid feature format. Must be Point type." pointWktOf db.now hv
      db.nextPointId
  have hb : (data.type != "FeatureCollection") = false := by simp [ht]
  refine ⟨rows, ?_, hlen, List.length_range' .., ?_⟩
  · simp [create_points, hb, hloop, hlen]
  · intro i hi hr hn
    exact ⟨by simp [List.get_eq_getElem, List.getElem_range'], hget i hi hr⟩

/-- **C9.** A feature created without a "name" property is persisted with
the default name — "Unnamed Point" for the Point endpoint, "Unnamed
Polygon" for the Polygon endpoint — and a provided name is persisted
unchanged: the i-th inserted row's name is the i-th feature's "name"
property with the kind's default as fallback. -/
theorem C9_default_names (db : DB) (dataP dataG : FeatureCollectionIn)
    (htP : dataP.type = "FeatureCollection")
    (htG : dataG.type = "FeatureCollection")
    (hvP : ∀ f ∈ dataP.features, f.type = "Feature" ∧
      f.geometry.type = "Point" ∧ (pointWktOf f.geometry.coordinates).isSome)
    (hvG : ∀ f ∈ dataG.features, f.type = "Feature" ∧
      f.geometry.type = "Polygon" ∧
      (polygonWktOf f.geometry.coordinates).isSome)
    (i j : Nat) (hi : i < dataP.features.length)
    (hj : j < dataG.features.length) :
    ∃ rowsP rowsG,
      (create_points db dataP).1.points = db.points ++ rowsP ∧
      rowsP.length = dataP.features.length ∧
      (∀ hr : i < rowsP.length,
        (rowsP.get ⟨i, hr⟩).name
          = ((dataP.features.get ⟨i, hi⟩).properties.lookup "name").getD
              "Unnamed Point") ∧
      (create_polygons db dataG).1.polygons = db.polygons ++ rowsG ∧
      rowsG.length = dataG.features.length ∧
      (∀ hr : j < rowsG.length,
        (rowsG.get ⟨j, hr⟩).name
          = ((dataG.features.get ⟨j, hj⟩).properties.lookup "name").getD
              "Unnamed Polygon") := by
  obtain ⟨rowsP, hloopP, hlenP, hgetP⟩ :=
    createLoop_ok_of_valid "Point" "Unnamed Point"
      "Invalid feature format. Must be Point type." pointWktOf db.now hvP
      db.nextPointId
  obtain ⟨rowsG, hloopG, hlenG, hgetG⟩ :=
    createLoop_ok_of_valid "Polygon" "Unnamed Polygon"
      "Invalid feature format. Must be Polygon type." polygonWktOf db.now hvG
      db.nextPolygonId
  have hbP : (dataP.type != "FeatureCollection") = false := by simp [htP]
  have hbG : (dataG.type != "FeatureCollection") = false := by simp [htG]
  refine ⟨rowsP, rowsG, by simp [create_points, hbP, hloopP], hlenP, ?_,
    by simp [create_polygons, hbG, hloopG], hlenG, ?_⟩
  · intro hr
    obtain ⟨w, _, hrow⟩ := hgetP i hi hr
    simp only [List.get_eq_getElem] at hrow
    simp [hrow, mkRow]
  · intro hr
    obtain ⟨w, _, hrow⟩ := hgetG j hj hr
    simp only [List.get_eq_getElem] at hrow
    simp [hrow, mkRow]

/-! ### Concrete sample data for witnesses -/

/-- A valid point feature at the given coordinates. -/
def samplePointFeature (lon lat : ℚ) (props : List (String × String)) :
    Feature :=
  ⟨"Feature", ⟨"Point", Coords.pt lon lat⟩, props⟩

/-- The unit-square ring, closed (first vertex equals last). -/
def squareRing : List (ℚ × ℚ) := [(0, 0), (1, 0), (1, 1), (0, 1), (0, 0)]

/-- A valid polygon feature over the unit square. -/
def samplePolygonFeature (props : List (String × String)) : Feature :=
  ⟨"Feature", ⟨"Polygon", Coords.rings [squareRing]⟩, props⟩

/-- A malformed feature: its geometry type tag is neither Point nor
Polygon. -/
def badFeature : Feature := ⟨"Feature", ⟨"LineString", Coords.pt 0 0⟩, []⟩

/-- The empty database. -/
def emptyDB : DB := ⟨[], [], 1, 1, 0⟩

/-- A point batch whose second of three features is malformed. -/
def cBatchP : FeatureCollectionIn :=
  ⟨"FeatureCollection",
    [samplePointFeature 1 2 [], badFeature, samplePointFeature 3 4 []]⟩

/-- A polygon batch whose second of three features is malformed. -/
def cBatchG : FeatureCollectionIn :=
  ⟨"FeatureCollection",
    [samplePolygonFeature [], badFeature, samplePolygonFeature []]⟩

/-- An all-valid two-feature point batch. -/
def cGoodBatchP : FeatureCollectionIn :=
  ⟨"FeatureCollection",
    [samplePointFeature 1 2 [("name", "A")], samplePointFeature 3 4 []]⟩

/-- An all-valid one-feature polygon batch without a name property. -/
def cGoodBatchG : FeatureCollectionIn :=
  ⟨"FeatureCollection", [samplePolygonFeature []]⟩

/-- A stored point row. -/
def techParkRow : Row :=
  ⟨1, "Tech Park", "", Wkt.point (77 : ℚ) (12 : ℚ), 0, 0⟩

/-- A stored polygon row. -/
def squareRow : Row := ⟨1, "Campus", "", Wkt.polygon [squareRing], 0, 0⟩

/-- A database holding the single stored point. -/
def onePointDB : DB := ⟨[techParkRow], [], 2, 1, 0⟩

/-- A database holding one point and one polygon. -/
def twoKindDB : DB := ⟨[techParkRow], [squareRow], 2, 2, 0⟩

/-- An engine whose spatial predicates always hold, used to exercise the
query handlers on concrete inputs. -/
def allEngine : Engine :=
  ⟨fun _ _ _ => true, fun _ _ => true, fun _ _ => true⟩

/-- Witness for C1: a three-feature batch whose second feature is malformed
commits nothing, for both the point and the polygon endpoint. -/
theorem C1_createMany_atomic_witness :
    (create_points emptyDB cBatchP).1 = emptyDB ∧
    (create_polygons emptyDB cBatchG).1 = emptyDB := by
  have h := C1_createMany_atomic emptyDB cBatchP cBatchG (by decide) (by decide)
  exact ⟨h.1.1, h.2.1⟩

/-- Witness for C7 at a concrete all-valid two-feature batch. -/
theorem C7_createMany_ids_in_order_witness :
    ∃ rows, create_points emptyDB cGoodBatchP
        = ({ emptyDB with
               points := emptyDB.points ++ rows
               nextPointId :=
                 emptyDB.nextPointId + cGoodBatchP.features.length },
           .ok (List.range' emptyDB.nextPointId cGoodBatchP.features.length)) := by
  obtain ⟨rows, h1, -, -, -⟩ :=
    C7_createMany_ids_in_order emptyDB cGoodBatchP rfl (by decide)
  exact ⟨rows, h1⟩

/-- Witness for C9 at concrete batches, one feature with a name property
and two without. -/
theorem C9_default_names_witness :
    ∃ rowsP rowsG,
      (create_points emptyDB cGoodBatchP).1.points
        = emptyDB.points ++ rowsP ∧
      (create_polygons emptyDB cGoodBatchG).1.polygons
        = emptyDB.polygons ++ rowsG := by
  obtain ⟨rowsP, rowsG, h1, -, -, h4, -, -⟩ :=
    C9_default_names emptyDB cGoodBatchP cGoodBatchG rfl rfl (by decide)
      (by decide) 1 0 (by decide) (by decide)
  exact ⟨rowsP, rowsG, h1, h4⟩

/-- **C2** is false on the code: `points_within_distance` performs no
validation of the distance parameter.  At the concrete distance −1 the call
is not rejected as a validation error by the core: it succeeds, the
negative distance being passed through to the storage engine's distance
predicate (which here matches the stored point). -/
theorem C2_counterexample :
    points_within_distance allEngine onePointDB (12 : ℚ) (77 : ℚ) (-1)
      = .ok ⟨"FeatureCollection", [rowToFeature techParkRow]⟩ := by
  rfl

/-- **C2** (amended): the core does not validate the distance parameter at
all; every call — negative distances included — succeeds, and the result is
exactly the stored points satisfying the engine's geography distance
predicate at the given, unvalidated distance. -/
theorem C2_no_distance_validation (e : Engine) (db : DB) (lat lon dist : ℚ) :
    ∃ fc, points_within_distance e db lat lon dist = .ok fc ∧
      ∀ g, g ∈ fc.features ↔
        ∃ r ∈ db.points, e.dwithin r.geom (Wkt.point lon lat) dist = true ∧
          g = rowToFeature r := by
  refine ⟨_, rfl, fun g => ?_⟩
  simp only [List.mem_map, List.mem_filter]
  constructor
  · rintro ⟨r, ⟨hr, hp⟩, hg⟩
    exact ⟨r, hr, hp, hg.symm⟩
  · rintro ⟨r, hr, hp, hg⟩
    exact ⟨r, ⟨hr, hp⟩, hg.symm⟩

/-- **C5.** `polygons_containing_point` returns exactly the polygons whose
geometry satisfies the engine's geodesic distance predicate within the
fixed 1-meter buffer around the query point `(lon, lat)` — a
tolerance-buffer query, not the engine's strict containment predicate. -/
theorem C5_polygons_containing_point_spec (e : Engine) (db : DB)
    (lat lon : ℚ) :
    ∃ fc, polygons_containing_point e db lat lon = .ok fc ∧
      ∀ g, g ∈ fc.features ↔
        ∃ r ∈ db.polygons, e.dwithin r.geom (Wkt.point lon lat) 1 = true ∧
          g = rowToFeature r := by
  refine ⟨_, rfl, fun g => ?_⟩
  simp only [List.mem_map, List.mem_filter]
  constructor
  · rintro ⟨r, ⟨hr, hp⟩, hg⟩
    exact ⟨r, hr, hp, hg.symm⟩
  · rintro ⟨r, hr, hp, hg⟩
    exact ⟨r, ⟨hr, hp⟩, hg.symm⟩

/-! ### Not-found behaviour of the single-row handlers -/

theorem get_point_notfound {db : DB} {pid : Nat}
    (h : db.points.find? (fun r => r.id == pid) = none) :
    get_point db pid = .error ⟨404, "Point not found"⟩ := by
  simp [get_point, h]

theorem get_polygon_notfound {db : DB} {pid : Nat}
    (h : db.polygons.find? (fun r => r.id == pid) = none) :
    get_polygon db pid = .error ⟨404, "Polygon not found"⟩ := by
  simp [get_polygon, h]

theorem update_point_notfound {db : DB} {pid : Nat} (f : Feature)
    (h : db.points.find? (fun r => r.id == pid) = none) :
    update_point db pid f = (db, .error ⟨404, "Point not found"⟩) := by
  simp [update_point, updateRows, h]

theorem update_polygon_notfound {db : DB} {pid : Nat} (f : Feature)
    (h : db.polygons.find? (fun r => r.id == pid) = none) :
    update_polygon db pid f = (db, .error ⟨404, "Polygon not found"⟩) := by
  simp [update_polygon, updateRows, h]

theorem delete_point_notfound {db : DB} {pid : Nat}
    (h : db.points.find? (fun r => r.id == pid) = none) :
    delete_point db pid = (db, .error ⟨404, "Point not found"⟩) := by
  simp [delete_point, deleteRows, h]

theorem delete_polygon_notfound {db : DB} {pid : Nat}
    (h : db.polygons.find? (fun r => r.id == pid) = none) :
    delete_polygon db pid = (db, .error ⟨404, "Polygon not found"⟩) := by
  simp [delete_polygon, deleteRows, h]

theorem find?_id_eq_none {l : List Row} {pid : Nat}
    (h : ∀ r ∈ l, r.id ≠ pid) :
    l.find? (fun r => r.id == pid) = none :=
  find?_eq_none_of_forall fun x hx => by simpa using h x hx

/-- **C10.** The existence check of the update handlers runs before the
feature-type validation: a PUT whose id does not exist fails with the 404
not-found error for every payload, in particular for one with a mismatched
geometry type, and never with the 400 malformed-payload error.  Stated for
both `update_point` and `update_polygon`. -/
theorem C10_update_notfound_precedence (db : DB) (pid qid : Nat)
    (fP fG : Feature)
    (hp : ∀ r ∈ db.points, r.id ≠ pid)
    (hg : ∀ r ∈ db.polygons, r.id ≠ qid) :
    update_point db pid fP = (db, .error ⟨404, "Point not found"⟩) ∧
    update_polygon db qid fG = (db, .error ⟨404, "Polygon not found"⟩) :=
  ⟨update_point_notfound fP (find?_id_eq_none hp),
   update_polygon_notfound fG (find?_id_eq_none hg)⟩

/-- Witness for C10: PUT with a mismatched-geometry payload at an id that
does not exist yields the 404 error, not the 400 error. -/
theorem C10_update_notfound_precedence_witness :
    update_point onePointDB 99 badFeature
      = (onePointDB, .error ⟨404, "Point not found"⟩) ∧
    update_polygon onePointDB 99 badFeature
      = (onePointDB, .error ⟨404, "Polygon not found"⟩) :=
  C10_update_notfound_precedence onePointDB 99 99 badFeature badFeature
    (by decide) (by decide)

/-- **C4.** `overlappingPolygons(polygonId)`: if the id is absent the call
fails with the 404 not-found error; otherwise the result contains exactly
the polygons other than the source whose geometry satisfies the engine's
intersection predicate against the source geometry, and every returned
feature has an id different from the source id. -/
theorem C4_overlapping_polygons_spec (e : Engine) (db : DB) (pid : Nat) :
    ((∀ r ∈ db.polygons, r.id ≠ pid) →
      overlapping_polygons e db pid = .error ⟨404, "Polygon not found"⟩) ∧
    ∀ src, db.polygons.find? (fun r => r.id == pid) = some src →
      ∃ fc, overlapping_polygons e db pid = .ok fc ∧
        (∀ g, g ∈ fc.features ↔
          ∃ r ∈ db.polygons, r.id ≠ pid ∧
            e.intersects r.geom (geomFromText (asText src.geom)) = true ∧
            g = rowToFeature r) ∧
        ∀ g ∈ fc.features, g.id ≠ pid := by
  constructor
  · intro h
    simp [overlapping_polygons, find?_id_eq_none h]
  · intro src hsrc
    refine ⟨⟨"FeatureCollection",
      (db.polygons.filter (fun r => r.id != pid
        && e.intersects r.geom (geomFromText (asText src.geom)))).map
        rowToFeature⟩,
      by simp [overlapping_polygons, hsrc], fun g => ?_, ?_⟩
    · simp only [List.mem_map, List.mem_filter, Bool.and_eq_true, bne_iff_ne]
      constructor
      · rintro ⟨r, ⟨hr, hne, hint⟩, hg⟩
        exact ⟨r, hr, hne, hint, hg.symm⟩
      · rintro ⟨r, hr, hne, hint, hg⟩
        exact ⟨r, ⟨hr, hne, hint⟩, hg.symm⟩
    · intro g hgmem
      simp only [List.mem_map, List.mem_filter, Bool.and_eq_true,
        bne_iff_ne] at hgmem
      obtain ⟨r, ⟨_, hne, _⟩, hg⟩ := hgmem
      subst hg
      simpa [rowToFeature] using hne

/-- Witness for C4: with one stored polygon, querying an absent id yields
404, and querying the stored polygon's id under an all-true intersection
predicate returns a collection that excludes the source itself. -/
theorem C4_overlapping_polygons_spec_witness :
    overlapping_polygons allEngine twoKindDB 99
      = .error ⟨404, "Polygon not found"⟩ ∧
    ∃ fc, overlapping_polygons allEngine twoKindDB 1 = .ok fc ∧
      ∀ g ∈ fc.features, g.id ≠ 1 := by
  constructor
  · exact (C4_overlapping_polygons_spec allEngine twoKindDB 99).1 (by decide)
  · obtain ⟨fc, hfc, -, hex⟩ :=
      (C4_overlapping_polygons_spec allEngine twoKindDB 1).2 squareRow
        (by decide)
    exact ⟨fc, hfc, hex⟩

theorem updateRows_ok_split (geomTag nf bad : String)
    (wktOf : Coords → Option Wkt) (now : Nat) {rows : List Row} {fid : Nat}
    {f : Feature} {src : Row} {w : Wkt}
    (hsrc : rows.find? (fun r => r.id == fid) = some src)
    (htf : f.type = "Feature") (hgt : f.geometry.type = geomTag)
    (hw : wktOf f.geometry.coordinates = some w) :
    ∃ l₁ l₂, rows = l₁ ++ src :: l₂ ∧
      (∀ x ∈ l₁, (x.id == fid) = false) ∧
      updateRows geomTag nf bad wktOf now rows fid f
        = (l₁ ++ applyUpdate f w now src :: l₂, .ok fid) := by
  obtain ⟨l₁, l₂, hdec, h1, hpa⟩ := find?_some_split hsrc
  have hb : (f.type != "Feature" || f.geometry.type != geomTag) = false := by
    simp [htf, hgt]
  refine ⟨l₁, l₂, hdec, h1, ?_⟩
  simp only [updateRows, hsrc, hb, Bool.false_eq_true, if_false, hw]
  rw [hdec, updateFirst_append _ _ h1 hpa]

/-- **C3.** Update semantics, for both kinds: an absent id fails with the
404 not-found error; an existing id with a mismatched geometry type tag
fails with the 400 invalid-feature-type error; an existing id with a
matching tag succeeds, replacing only the fetched row — its name changed
exactly when "name" is present in the incoming properties, its description
changed exactly when "description" is present, its geometry replaced
unconditionally, its `updated_at` refreshed to the current clock, and its
id and `created_at` preserved. -/
theorem C3_update_semantics (db : DB) (pid qid : Nat) (fP fG : Feature) :
    ((∀ r ∈ db.points, r.id ≠ pid) →
      update_point db pid fP = (db, .error ⟨404, "Point not found"⟩)) ∧
    (∀ src, db.points.find? (fun r => r.id == pid) = some src →
      fP.type = "Feature" → fP.geometry.type ≠ "Point" →
      update_point db pid fP
        = (db, .error ⟨400, "Invalid feature format. Must be Point type."⟩)) ∧
    (∀ src w, db.points.find? (fun r => r.id == pid) = some src →
      fP.type = "Feature" → fP.geometry.type = "Point" →
      pointWktOf fP.geometry.coordinates = some w →
      ∃ l₁ l₂ r, db.points = l₁ ++ src :: l₂ ∧
        (∀ x ∈ l₁, (x.id == pid) = false) ∧
        (update_point db pid fP).2 = .ok pid ∧
        (update_point db pid fP).1.points = l₁ ++ r :: l₂ ∧
        r.id = src.id ∧ r.created_at = src.created_at ∧
        r.geom = geomFromText w ∧ r.updated_at = db.now ∧
        r.name = (match fP.properties.lookup "name" with
                  | some v => v
                  | none => src.name) ∧
        r.description = (match fP.properties.lookup "description" with
                         | some v => v
                         | none => src.description)) ∧
    ((∀ r ∈ db.polygons, r.id ≠ qid) →
      update_polygon db qid fG = (db, .error ⟨404, "Polygon not found"⟩)) ∧
    (∀ src, db.polygons.find? (fun r => r.id == qid) = some src →
      fG.type = "Feature" → fG.geometry.type ≠ "Polygon" →
      update_polygon db qid fG
        = (db, .error ⟨400, "Invalid feature format. Must be Polygon type."⟩)) ∧
    (∀ src w, db.polygons.find? (fun r => r.id == qid) = some src →
      fG.type = "Feature" → fG.geometry.type = "Polygon" →
      polygonWktOf fG.geometry.coordinates = some w →
      ∃ l₁ l₂ r, db.polygons = l₁ ++ src :: l₂ ∧
        (∀ x ∈ l₁, (x.id == qid) = false) ∧
        (update_polygon db qid fG).2 = .ok qid ∧
        (update_polygon db qid fG).1.polygons = l₁ ++ r :: l₂ ∧
        r.id = src.id ∧ r.created_at = src.created_at ∧
        r.geom = geomFromText w ∧ r.updated_at = db.now ∧
        r.name = (match fG.properties.lookup "name" with
                  | some v => v
                  | none => src.name) ∧
        r.description = (match fG.properties.lookup "description" with
                         | some v => v
                         | none => src.description)) := by
  refine ⟨?_, ?_, ?_, ?_, ?_, ?_⟩
  · intro h
    exact update_point_notfound fP (find?_id_eq_none h)
  · intro src hsrc htf hgt
    have hb : (fP.type != "Feature" || fP.geometry.type != "Point") = true := by
      simp [htf, hgt]
    simp [update_point, updateRows, hsrc, hb]
  · intro src w hsrc htf hgt hw
    obtain ⟨l₁, l₂, hdec, h1, hupd⟩ := updateRows_ok_split "Point"
      "Point not found" "Invalid feature format. Must be Point type."
      pointWktOf db.now hsrc htf hgt hw
    exact ⟨l₁, l₂, applyUpdate fP w db.now src, hdec, h1,
      by simp [update_point, hupd], by simp [update_point, hupd],
      rfl, rfl, rfl, rfl, rfl, rfl⟩
  · intro h
    exact update_polygon_notfound fG (find?_id_eq_none h)
  · intro src hsrc htf hgt
    have hb : (fG.type != "Feature" || fG.geometry.type != "Polygon") = true := by
      simp [htf, hgt]
    simp [update_polygon, updateRows, hsrc, hb]
  · intro src w hsrc htf hgt hw
    obtain ⟨l₁, l₂, hdec, h1, hupd⟩ := updateRows_ok_split "Polygon"
      "Polygon not found" "Invalid feature format. Must be Polygon type."
      polygonWktOf db.now hsrc htf hgt hw
    exact ⟨l₁, l₂, applyUpdate fG w db.now src, hdec, h1,
      by simp [update_polygon, hupd], by simp [update_polygon, hupd],
      rfl, rfl, rfl, rfl, rfl, rfl⟩

/-- Witness for C3 at concrete inputs: an absent id yields 404, an existing
id with a mismatched tag yields 400, and an existing id with a matching tag
updates successfully. -/
theorem C3_update_semantics_witness :
    update_point twoKindDB 99 badFeature
      = (twoKindDB, .error ⟨404, "Point not found"⟩) ∧
    update_point twoKindDB 1 badFeature
      = (twoKindDB,
         .error ⟨400, "Invalid feature format. Must be Point type."⟩) ∧
    (update_point twoKindDB 1
      (samplePointFeature 5 6 [("name", "New")])).2 = .ok 1 ∧
    (update_polygon twoKindDB 1 (samplePolygonFeature [])).2 = .ok 1 := by
  refine ⟨?_, ?_, ?_, ?_⟩
  · exact (C3_update_semantics twoKindDB 99 99 badFeature badFeature).1
      (by decide)
  · exact (C3_update_semantics twoKindDB 1 1 badFeature badFeature).2.1
      techParkRow rfl rfl (by decide)
  · obtain ⟨-, -, -, -, -, hok, -⟩ :=
      (C3_update_semantics twoKindDB 1 1
        (samplePointFeature 5 6 [("name", "New")]) badFeature).2.2.1
        techParkRow (Wkt.point 5 6) rfl rfl rfl rfl
    exact hok
  · obtain ⟨-, -, -, -, -, hok, -⟩ :=
      (C3_update_semantics twoKindDB 1 1 badFeature
        (samplePolygonFeature [])).2.2.2.2.2
        squareRow (Wkt.polygon [squareRing]) rfl rfl rfl rfl
    exact hok

/-- **C6.** Coordinate round trip for a valid Point feature: creating the
feature encodes its `[longitude, latitude]` pair into the WKT text sent to
the engine, and reading it back decodes the engine's GeoJSON output to the
same pair — within the 1e-9 degree tolerance (the embedding's exact
rational coordinates make the round trip exact, so the tolerance bound
holds with slack). -/
theorem C6_point_roundtrip (db : DB) (lon lat : ℚ)
    (props : List (String × String))
    (hfresh : ∀ r ∈ db.points, r.id ≠ db.nextPointId) :
    ∃ db2, create_points db
        ⟨"FeatureCollection",
          [⟨"Feature", ⟨"Point", Coords.pt lon lat⟩, props⟩]⟩
        = (db2, .ok [db.nextPointId]) ∧
      ∃ out, get_point db2 db.nextPointId = .ok out ∧
        out.geometry.type = "Point" ∧
        ∃ lon2 lat2, out.geometry.coordinates = Coords.pt lon2 lat2 ∧
          |lon2 - lon| ≤ 1 / 1000000000 ∧ |lat2 - lat| ≤ 1 / 1000000000 := by
  have hrowid :
      (mkRow "Unnamed Point" db.nextPointId db.now
        ⟨"Feature", ⟨"Point", Coords.pt lon lat⟩, props⟩
        (Wkt.point lon lat)).id = db.nextPointId := rfl
  refine ⟨{ db with
      points := db.points ++
        [mkRow "Unnamed Point" db.nextPointId db.now
          ⟨"Feature", ⟨"Point", Coords.pt lon lat⟩, props⟩
          (Wkt.point lon lat)]
      nextPointId := db.nextPointId + 1 }, ?_, ?_⟩
  · simp [create_points, createLoop, pointWktOf]
  · have hfind : ((db.points ++
        [mkRow "Unnamed Point" db.nextPointId db.now
          ⟨"Feature", ⟨"Point", Coords.pt lon lat⟩, props⟩
          (Wkt.point lon lat)]).find? (fun r => r.id == db.nextPointId))
        = some (mkRow "Unnamed Point" db.nextPointId db.now
          ⟨"Feature", ⟨"Point", Coords.pt lon lat⟩, props⟩
          (Wkt.point lon lat)) := by
      rw [find?_append_of_none _ (fun x hx => by simpa using hfresh x hx)]
      simp [hrowid]
    refine ⟨rowToFeature (mkRow "Unnamed Point" db.nextPointId db.now
        ⟨"Feature", ⟨"Point", Coords.pt lon lat⟩, props⟩ (Wkt.point lon lat)),
      by simp [get_point, hfind], rfl, lon, lat, rfl, by simp, by simp⟩

/-- Witness for C6 at concrete coordinates on the empty database. -/
theorem C6_point_roundtrip_witness :
    ∃ db2, create_points emptyDB
        ⟨"FeatureCollection",
          [⟨"Feature", ⟨"Point", Coords.pt 77 12⟩, [("name", "Tech Park")]⟩]⟩
        = (db2, .ok [emptyDB.nextPointId]) ∧
      ∃ out, get_point db2 emptyDB.nextPointId = .ok out ∧
        out.geometry.type = "Point" ∧
        ∃ lon2 lat2, out.geometry.coordinates = Coords.pt lon2 lat2 ∧
          |lon2 - 77| ≤ 1 / 1000000000 ∧ |lat2 - 12| ≤ 1 / 1000000000 :=
  C6_point_roundtrip emptyDB 77 12 [("name", "Tech Park")] (by decide)

theorem deleteRows_removes {rows : List Row} {fid : Nat} (nf : String)
    (hnodup : (rows.map Row.id).Nodup) (hex : ∃ r ∈ rows, r.id = fid) :
    (deleteRows nf rows fid).2 = .ok fid ∧
    (deleteRows nf rows fid).1.find? (fun r => r.id == fid) = none := by
  have hs : (rows.find? (fun r => r.id == fid)).isSome := by
    rw [List.find?_isSome]
    obtain ⟨r, hr, hid⟩ := hex
    exact ⟨r, hr, by simp [hid]⟩
  obtain ⟨a, ha⟩ := Option.isSome_iff_exists.mp hs
  obtain ⟨l₁, l₂, hdec, h1, hpa⟩ := find?_some_split ha
  have haid : a.id = fid := by simpa using hpa
  have herase : rows.eraseP (fun r => r.id == fid) = l₁ ++ l₂ := by
    rw [hdec]
    exact eraseP_append _ h1 hpa
  have hnotin : ∀ x ∈ l₂, ¬x.id = a.id := by
    rw [hdec] at hnodup
    simp only [List.map_append, List.map_cons] at hnodup
    simp [List.nodup_append] at hnodup
    exact hnodup.2.1.1
  have hl₂ : ∀ x ∈ l₂, (x.id == fid) = false := by
    intro x hx
    have hxid := hnotin x hx
    rw [haid] at hxid
    simp [hxid]
  refine ⟨by simp [deleteRows, ha], ?_⟩
  simp only [deleteRows, ha, herase]
  exact find?_eq_none_of_forall fun x hx => by
    rcases List.mem_append.mp hx with h | h
    · exact h1 x h
    · exact hl₂ x h

/-- **C8.** Deletion is permanent and final, for both kinds: after a
successful delete of an id, a repeated delete of that id, a get of it, and
an update of it all fail with the 404 not-found error — the row is removed
outright, with no soft-delete or tombstone (row ids are unique, the
table's primary key). -/
theorem C8_delete_permanent (db : DB) (pid qid : Nat) (fP fG : Feature)
    (hnodupP : (db.points.map Row.id).Nodup)
    (hnodupG : (db.polygons.map Row.id).Nodup)
    (hexP : ∃ r ∈ db.points, r.id = pid)
    (hexG : ∃ r ∈ db.polygons, r.id = qid) :
    (delete_point db pid).2 = .ok pid ∧
    delete_point (delete_point db pid).1 pid
      = ((delete_point db pid).1, .error ⟨404, "Point not found"⟩) ∧
    get_point (delete_point db pid).1 pid = .error ⟨404, "Point not found"⟩ ∧
    (update_point (delete_point db pid).1 pid fP).2
      = .error ⟨404, "Point not found"⟩ ∧
    (delete_polygon db qid).2 = .ok qid ∧
    delete_polygon (delete_polygon db qid).1 qid
      = ((delete_polygon db qid).1, .error ⟨404, "Polygon not found"⟩) ∧
    get_polygon (delete_polygon db qid).1 qid
      = .error ⟨404, "Polygon not found"⟩ ∧
    (update_polygon (delete_polygon db qid).1 qid fG).2
      = .error ⟨404, "Polygon not found"⟩ := by
  obtain ⟨hokP, hnoneP⟩ := deleteRows_removes "Point not found" hnodupP hexP
  obtain ⟨hokG, hnoneG⟩ := deleteRows_removes "Polygon not found" hnodupG hexG
  have hnoneP2 : ((delete_point db pid).1.points.find?
      (fun r => r.id == pid)) = none := hnoneP
  have hnoneG2 : ((delete_polygon db qid).1.polygons.find?
      (fun r => r.id == qid)) = none := hnoneG
  refine ⟨hokP, delete_point_notfound hnoneP2, get_point_notfound hnoneP2,
    ?_, hokG, delete_polygon_notfound hnoneG2, get_polygon_notfound hnoneG2,
    ?_⟩
  · rw [update_point_notfound fP hnoneP2]
  · rw [update_polygon_notfound fG hnoneG2]

/-- Witness for C8 on a database holding one point and one polygon. -/
theorem C8_delete_permanent_witness :
    (delete_point twoKindDB 1).2 = .ok 1 ∧
    get_point (delete_point twoKindDB 1).1 1
      = .error ⟨404, "Point not found"⟩ ∧
    (delete_polygon twoKindDB 1).2 = .ok 1 ∧
    get_polygon (delete_polygon twoKindDB 1).1 1
      = .error ⟨404, "Polygon not found"⟩ := by
  obtain ⟨h1, -, h3, -, h5, -, h7, -⟩ :=
    C8_delete_permanent twoKindDB 1 1 badFeature badFeature (by decide)
      (by decide) (by decide) (by decide)
  exact ⟨h1, h3, h5, h7⟩

end SpatialApp
